import Mathlib

set_option maxHeartbeats 4000000
set_option maxRecDepth 100000

/-
Shallow embedding of the jolson88/chip8 interpreter (src/opcode.rs, src/chip8.rs).

Machine bytes are modelled as Nat with explicit reduction modulo 256 where the
Rust u8 type wraps.  Rust u8 arithmetic that can overflow is modelled with the
release-profile wrapping semantics (a debug build would panic at the same
spots; each such spot is marked in a comment).  Array indexing out of bounds
and an explicit Rust panic are modelled as the Outcome.fault result, which
carries no state because a panic aborts the process.
-/

namespace Chip8Verify

/-- Opcode enum from src/opcode.rs.  Register operands are carried as the 4-bit
nibble values 0..15: the source wraps them in a Register enum via
Register::from_u8(nibble).unwrap(), which cannot fail on a nibble. -/
inductive Opcode where
  | ClearDisplay
  | Return
  | Noop
  | Jump (nnn : Nat)
  | CallSubroutine (nnn : Nat)
  | SkipIfConstantEqual (vx kk : Nat)
  | SkipIfConstantNotEqual (vx kk : Nat)
  | SkipIfRegistersEqual (vx vy : Nat)
  | LoadConstant (vx kk : Nat)
  | AddConstant (vx kk : Nat)
  | LoadRegister (vx vy : Nat)
  | Or (vx vy : Nat)
  | And (vx vy : Nat)
  | Xor (vx vy : Nat)
  | AddRegister (vx vy : Nat)
  | SubtractRightRegister (vx vy : Nat)
  | ShiftRight (vx : Nat)
  | SubtractLeftRegister (vx vy : Nat)
  | ShiftLeft (vx : Nat)
  | SkipIfRegistersNotEqual (vx vy : Nat)
  | LoadAddress (nnn : Nat)
  | JumpPlus (nnn : Nat)
  | Random (vx kk : Nat)
  | DisplaySprite (vx vy n : Nat)
  | SkipIfPressed (vx : Nat)
  | SkipIfNotPressed (vx : Nat)
  | LoadDelayTimer (vx : Nat)
  | WaitForPress (vx : Nat)
  | SetDelayTimer (vx : Nat)
  | SetSoundTimer (vx : Nat)
  | AddAddress (vx : Nat)
  | LoadAddressOfSprite (vx : Nat)
  | LoadDigits (vx : Nat)
  | StoreRegisters (vx : Nat)
  | LoadRegisters (vx : Nat)
deriving DecidableEq

/-- Field accessor op of Instruction in src/opcode.rs: top nibble of the word. -/
def instOp (w : Nat) : Nat := w >>> 12

/-- Field accessor x: second nibble. -/
def instX (w : Nat) : Nat := (w >>> 8) &&& 0xF

/-- Field accessor y: third nibble. -/
def instY (w : Nat) : Nat := (w >>> 4) &&& 0xF

/-- Field accessor kk: low byte. -/
def instKK (w : Nat) : Nat := w &&& 0xFF

/-- Field accessor nnn: low 12 bits. -/
def instNNN (w : Nat) : Nat := w &&& 0xFFF

/-- Field accessor n: low nibble. -/
def instN (w : Nat) : Nat := w &&& 0xF

/-- Decoder, from impl From of u16 for Opcode in src/opcode.rs.  The source is
a match on the top nibble with inner matches on the low byte (groups 0, E, F)
or the low nibble (group 8); every arm that executes the Rust panic macro
(unrecognized instruction) is modelled as none. -/
def decode (w : Nat) : Option Opcode :=
  if instOp w = 0x0 then
    if w &&& 0xFF = 0xE0 then some .ClearDisplay
    else if w &&& 0xFF = 0xEE then some .Return
    else some .Noop
  else if instOp w = 0x1 then some (.Jump (instNNN w))
  else if instOp w = 0x2 then some (.CallSubroutine (instNNN w))
  else if instOp w = 0x3 then some (.SkipIfConstantEqual (instX w) (instKK w))
  else if instOp w = 0x4 then some (.SkipIfConstantNotEqual (instX w) (instKK w))
  else if instOp w = 0x5 then some (.SkipIfRegistersEqual (instX w) (instY w))
  else if instOp w = 0x6 then some (.LoadConstant (instX w) (instKK w))
  else if instOp w = 0x7 then some (.AddConstant (instX w) (instKK w))
  else if instOp w = 0x8 then
    if w &&& 0x0F = 0x0 then some (.LoadRegister (instX w) (instY w))
    else if w &&& 0x0F = 0x1 then some (.Or (instX w) (instY w))
    else if w &&& 0x0F = 0x2 then some (.And (instX w) (instY w))
    else if w &&& 0x0F = 0x3 then some (.Xor (instX w) (instY w))
    else if w &&& 0x0F = 0x4 then some (.AddRegister (instX w) (instY w))
    else if w &&& 0x0F = 0x5 then some (.SubtractRightRegister (instX w) (instY w))
    else if w &&& 0x0F = 0x6 then some (.ShiftRight (instX w))
    else if w &&& 0x0F = 0x7 then some (.SubtractLeftRegister (instX w) (instY w))
    else if w &&& 0x0F = 0xE then some (.ShiftLeft (instX w))
    else none
  else if instOp w = 0x9 then some (.SkipIfRegistersNotEqual (instX w) (instY w))
  else if instOp w = 0xA then some (.LoadAddress (instNNN w))
  else if instOp w = 0xB then some (.JumpPlus (instNNN w))
  else if instOp w = 0xC then some (.Random (instX w) (instKK w))
  else if instOp w = 0xD then some (.DisplaySprite (instX w) (instY w) (instN w))
  else if instOp w = 0xE then
    if w &&& 0xFF = 0x9E then some (.SkipIfPressed (instX w))
    else if w &&& 0xFF = 0xA1 then some (.SkipIfNotPressed (instX w))
    else none
  else if instOp w = 0xF then
    if w &&& 0xFF = 0x07 then some (.LoadDelayTimer (instX w))
    else if w &&& 0xFF = 0x0A then some (.WaitForPress (instX w))
    else if w &&& 0xFF = 0x15 then some (.SetDelayTimer (instX w))
    else if w &&& 0xFF = 0x18 then some (.SetSoundTimer (instX w))
    else if w &&& 0xFF = 0x1E then some (.AddAddress (instX w))
    else if w &&& 0xFF = 0x29 then some (.LoadAddressOfSprite (instX w))
    else if w &&& 0xFF = 0x33 then some (.LoadDigits (instX w))
    else if w &&& 0xFF = 0x55 then some (.StoreRegisters (instX w))
    else if w &&& 0xFF = 0x65 then some (.LoadRegisters (instX w))
    else none
  else none

/-- Machine state, from struct Chip8 in src/chip8.rs.  The fixed arrays
(memory: 4096 bytes, reg: 16 bytes, screen: 64 times 32 cells) are modelled as
functions from the index; the call stack (a Rust Vec pushed and popped at its
end) is a list whose head is the top of the stack. -/
structure Chip8 where
  memory : Nat → Nat
  reg : Nat → Nat
  pc : Nat
  stack : List Nat
  i_addr : Nat
  delay_timer : Nat
  sound_timer : Nat
  screen : Nat → Nat

/-- Result of a fallible machine operation.  ok is the Rust Ok result with the
mutated machine; err is a recoverable Err propagated to the host, carrying the
machine as it stood at the early return; fault is a Rust panic (explicit panic
macro, slice or index out of bounds), which aborts the process and therefore
carries no state. -/
inductive Outcome where
  | ok (s : Chip8)
  | err (msg : String) (s : Chip8)
  | fault

/-- Pointwise update of an array modelled as a function. -/
def upd (f : Nat → Nat) (i v : Nat) : Nat → Nat := fun j => if j = i then v else f j

/-- Wrapping u8 subtraction a - b, the release-profile semantics of the bare
Rust u8 subtraction (a debug build panics on underflow).  Faithful to u8 for
a, b < 256. -/
def sub8 (a b : Nat) : Nat := (a + 256 - b) % 256

/-- Font table FONT from src/chip8.rs: 16 glyphs of 5 bytes each. -/
def FONT : List Nat :=
  [0xF0, 0x90, 0x90, 0x90, 0xF0,
   0x20, 0x60, 0x20, 0x20, 0x70,
   0xF0, 0x10, 0xF0, 0x80, 0xF0,
   0xF0, 0x10, 0xF0, 0x10, 0xF0,
   0x90, 0x90, 0xF0, 0x10, 0x10,
   0xF0, 0x80, 0xF0, 0x10, 0xF0,
   0xF0, 0x80, 0xF0, 0x90, 0xF0,
   0xF0, 0x10, 0x20, 0x40, 0x40,
   0xF0, 0x90, 0xF0, 0x90, 0xF0,
   0xF0, 0x90, 0xF0, 0x10, 0xF0,
   0xF0, 0x90, 0xF0, 0x90, 0x90,
   0xE0, 0x90, 0xE0, 0x90, 0xE0,
   0xF0, 0x80, 0x80, 0x80, 0xF0,
   0xE0, 0x90, 0x90, 0x90, 0xE0,
   0xF0, 0x80, 0xF0, 0x80, 0xF0,
   0xF0, 0x80, 0xF0, 0x80, 0x80]

/-- Freshly constructed machine, from impl Default for Chip8: everything
zeroed, pc = 0x200, and the font copy loop writes FONT byte (i * 5 + j) to
memory address BASE_FONT_ADDRESS + i * 5 + j for i < 16, j < 5, that is, the
font bytes land verbatim at addresses 0..79. -/
def chip8Default : Chip8 :=
  { memory := fun a => if a < 80 then FONT.getD a 0 else 0
    reg := fun _ => 0
    pc := 0x200
    stack := []
    i_addr := 0
    delay_timer := 0
    sound_timer := 0
    screen := fun _ => 0 }

/-- Chip8::load_program from src/chip8.rs: the slice expression
memory[0x200 .. 0x200 + data.len()] panics (fault) when its end exceeds 4096,
otherwise copy_from_slice lands the bytes verbatim at 0x200.  The Rust
function returns unit, not Result: it can only succeed or panic, never report
a recoverable error. -/
def loadProgram (s : Chip8) (data : List Nat) : Outcome :=
  if 0x200 + data.length ≤ 4096 then
    .ok { s with memory := fun a =>
          if 0x200 ≤ a ∧ a < 0x200 + data.length then data.getD (a - 0x200) 0
          else s.memory a }
  else .fault

/-- One pixel of the sprite blit (body of the inner x_offset loop of the
DisplaySprite arm): wrapping u8 additions x + x_offset and the mods by the
screen dimensions, collision test against the screen value before the xor,
then the xor write.  acc is the pair (screen, collision flag so far). -/
def drawPixel (line yoff xv yv : Nat) (acc : (Nat → Nat) × Bool) (xoff : Nat) :
    (Nat → Nat) × Bool :=
  let destX := (xv + xoff) % 256 % 64
  let destY := (yv + yoff) % 256 % 32
  let di := destY * 64 + destX
  let bit := 7 - xoff
  let spx := (line >>> bit) &&& 1
  let coll := if spx = 1 ∧ acc.1 di = 1 then true else acc.2
  (upd acc.1 di (Nat.xor (acc.1 di) spx), coll)

/-- One row of the sprite blit (body of the y_offset loop): read the sprite
line at i_addr + y_offset (array indexing, fault when out of bounds), then
run the 8 column updates left to right. -/
def drawRow (mem : Nat → Nat) (ia xv yv : Nat) (acc : Option ((Nat → Nat) × Bool))
    (yoff : Nat) : Option ((Nat → Nat) × Bool) :=
  acc.bind fun sc =>
    if ia + yoff < 4096 then
      some ((List.range 8).foldl (drawPixel (mem (ia + yoff)) yoff xv yv) sc)
    else none

/-- Full sprite blit of the DisplaySprite arm: rows 0..n-1 in order, starting
from the current screen and a collision flag initialized to false. -/
def drawSprite (mem : Nat → Nat) (ia xv yv n : Nat) (screen : Nat → Nat) :
    Option ((Nat → Nat) × Bool) :=
  (List.range n).foldl (drawRow mem ia xv yv) (some (screen, false))

/-- Memory writes of the StoreRegisters (Fx55) arm: the source loop is
for i in 0 .. vx as usize, writing reg i to memory at i_addr + i, with the
array bound check modelled as fault (none).  Note the exclusive upper bound:
the loop runs x times, not x + 1 times. -/
def storeRegs (reg : Nat → Nat) (ia x : Nat) (mem : Nat → Nat) : Option (Nat → Nat) :=
  (List.range x).foldl
    (fun acc i => acc.bind fun m =>
      if ia + i < 4096 then some (upd m (ia + i) (reg i)) else none)
    (some mem)

/-- Register writes of the LoadRegisters (Fx65) arm, same exclusive loop
bound as storeRegs. -/
def loadRegs (mem : Nat → Nat) (ia x : Nat) (reg : Nat → Nat) : Option (Nat → Nat) :=
  (List.range x).foldl
    (fun acc i => acc.bind fun r =>
      if ia + i < 4096 then some (upd r i (mem (ia + i))) else none)
    (some reg)

/-- Chip8::execute_opcode from src/chip8.rs, one arm per Opcode variant, in
source order.  rnd stands for the byte drawn by the rand crate in the Random
(Cxkk) arm.  Register indexing cannot fault (operands are nibbles, the array
has 16 slots); memory indexing can. -/
def executeOpcode (s : Chip8) (op : Opcode) (rnd : Nat) : Outcome :=
  match op with
  | .ClearDisplay => .ok { s with screen := fun _ => 0 }
  | .Noop => .ok s
  | .Return =>
    match s.stack with
    | [] => .err "Tried to return from empty stack" s
    | sp :: rest => .ok { s with pc := sp, stack := rest }
  | .Jump nnn => .ok { s with pc := nnn }
  | .CallSubroutine nnn => .ok { s with stack := s.pc :: s.stack, pc := nnn }
  | .SkipIfConstantEqual vx kk =>
    .ok (if s.reg vx = kk then { s with pc := s.pc + 2 } else s)
  | .SkipIfConstantNotEqual vx kk =>
    .ok (if s.reg vx ≠ kk then { s with pc := s.pc + 2 } else s)
  | .SkipIfRegistersEqual vx vy =>
    .ok (if s.reg vx = s.reg vy then { s with pc := s.pc + 2 } else s)
  | .LoadConstant vx kk => .ok { s with reg := upd s.reg vx kk }
  | .AddConstant vx kk =>
    -- source: (u16::from(r) + u16::from(kk) % 256) as u8; the u16 sum cannot
    -- overflow and the cast back to u8 truncates modulo 256
    .ok { s with reg := upd s.reg vx ((s.reg vx + kk % 256) % 256) }
  | .LoadRegister vx vy => .ok { s with reg := upd s.reg vx (s.reg vy) }
  | .Or vx vy => .ok { s with reg := upd s.reg vx ((s.reg vx) ||| (s.reg vy)) }
  | .And vx vy => .ok { s with reg := upd s.reg vx ((s.reg vx) &&& (s.reg vy)) }
  | .Xor vx vy => .ok { s with reg := upd s.reg vx (Nat.xor (s.reg vx) (s.reg vy)) }
  | .AddRegister vx vy =>
    -- flag write happens before the result write; when vx = 15 the result
    -- overwrites the flag
    let val := s.reg vx + s.reg vy
    let reg1 := if val > 255 then upd s.reg 15 1 else s.reg
    .ok { s with reg := upd reg1 vx (val &&& 0xFF) }
  | .SubtractRightRegister vx vy =>
    -- bare u8 subtraction: wraps in release, panics in debug on underflow;
    -- the flag is only conditionally set to 1, never cleared
    let vxv := s.reg vx
    let vyv := s.reg vy
    let reg1 := if vxv > vyv then upd s.reg 15 1 else s.reg
    .ok { s with reg := upd reg1 vx (sub8 vxv vyv) }
  | .ShiftRight vx =>
    let vxv := s.reg vx
    let reg1 := if vxv &&& 0x01 = 1 then upd s.reg 15 1 else s.reg
    .ok { s with reg := upd reg1 vx (vxv >>> 1) }
  | .SubtractLeftRegister vx vy =>
    let vxv := s.reg vx
    let vyv := s.reg vy
    let reg1 := if vyv > vxv then upd s.reg 15 1 else s.reg
    .ok { s with reg := upd reg1 vx (sub8 vyv vxv) }
  | .ShiftLeft vx =>
    -- u8 left shift wraps modulo 256 in release
    let vxv := s.reg vx
    let reg1 := if vxv &&& 0x80 = 0x80 then upd s.reg 15 1 else s.reg
    .ok { s with reg := upd reg1 vx ((vxv <<< 1) % 256) }
  | .SkipIfRegistersNotEqual vx vy =>
    .ok (if s.reg vx ≠ s.reg vy then { s with pc := s.pc + 2 } else s)
  | .LoadAddress nnn => .ok { s with i_addr := nnn }
  | .JumpPlus nnn => .ok { s with pc := s.reg 0 + nnn }
  | .Random vx kk => .ok { s with reg := upd s.reg vx ((rnd % 256) &&& kk) }
  | .DisplaySprite vx vy n =>
    match drawSprite s.memory s.i_addr (s.reg vx) (s.reg vy) n s.screen with
    | none => .fault
    | some (screen1, collision) =>
      -- the flag is only conditionally set to 1 after the blit, never cleared
      .ok { s with screen := screen1,
                   reg := if collision then upd s.reg 15 1 else s.reg }
  | .SkipIfPressed _ => .ok s
  | .SkipIfNotPressed _ => .ok s
  | .LoadDelayTimer vx => .ok { s with reg := upd s.reg vx s.delay_timer }
  | .WaitForPress _ => .ok s
  | .SetDelayTimer vx => .ok { s with delay_timer := s.reg vx }
  | .SetSoundTimer vx => .ok { s with sound_timer := s.reg vx }
  | .AddAddress vx => .ok { s with i_addr := s.i_addr + s.reg vx }
  | .LoadAddressOfSprite vx =>
    -- source multiplies in u8: (reg vx * 5) wraps modulo 256 in release
    .ok { s with i_addr := 0x000 + (s.reg vx * 5) % 256 }
  | .LoadDigits vx =>
    let val := s.reg vx
    let mem1 := upd s.memory s.i_addr (val / 100)
    let mem2 := upd mem1 (s.i_addr + 1) (val / 10 % 10)
    let mem3 := upd mem2 (s.i_addr + 2) (val % 10)
    if s.i_addr + 2 < 4096 then .ok { s with memory := mem3 }
    else .fault
  | .StoreRegisters vx =>
    match storeRegs s.reg s.i_addr vx s.memory with
    | none => .fault
    | some mem1 => .ok { s with memory := mem1 }
  | .LoadRegisters vx =>
    match loadRegs s.memory s.i_addr vx s.reg with
    | none => .fault
    | some reg1 => .ok { s with reg := reg1 }

/-- Chip8::tick from src/chip8.rs.  First both timers are updated with
max(t - 1, 0); the subtraction is a bare u8 subtraction, so a timer of 0
wraps to 255 in release (and panics in debug), and the max with 0 is the
identity on an unsigned value.  Then the big-endian word at pc is fetched
(array indexing, fault out of bounds), decoded (fault on an unrecognized
word), pc is advanced by 2, and the opcode is executed. -/
def tick (s : Chip8) (rnd : Nat) : Outcome :=
  let s1 := { s with delay_timer := max ((s.delay_timer + 255) % 256) 0,
                     sound_timer := max ((s.sound_timer + 255) % 256) 0 }
  if s1.pc + 1 < 4096 then
    match decode ((s1.memory s1.pc) <<< 8 ||| s1.memory (s1.pc + 1)) with
    | none => .fault
    | some op => executeOpcode { s1 with pc := s1.pc + 2 } op rnd
  else .fault

/-- Chip8::get_pixel from src/chip8.rs. -/
def getPixel (s : Chip8) (x y : Nat) : Nat := s.screen (y * 64 + x)

/-- Chain a tick onto a previous outcome (runs the next tick only when the
previous operation succeeded). -/
def oTick (o : Outcome) (rnd : Nat) : Outcome :=
  match o with
  | .ok s => tick s rnd
  | o => o

/-- Register observation of an outcome: some value when the operation
succeeded, none otherwise. -/
def regOf (o : Outcome) (i : Nat) : Option Nat :=
  match o with
  | .ok s => some (s.reg i)
  | _ => none

/-- Memory observation of an outcome. -/
def memOf (o : Outcome) (a : Nat) : Option Nat :=
  match o with
  | .ok s => some (s.memory a)
  | _ => none

/-- Screen observation of an outcome, through Chip8::get_pixel. -/
def pixelOf (o : Outcome) (x y : Nat) : Option Nat :=
  match o with
  | .ok s => some (getPixel s x y)
  | _ => none

/-- Timer observation of an outcome. -/
def timersOf (o : Outcome) : Option (Nat × Nat) :=
  match o with
  | .ok s => some (s.delay_timer, s.sound_timer)
  | _ => none

/-- Modelled from the spec, section 4.1 encoding table, for comparison with
the decoder of src/opcode.rs: the variant of each table row at exactly its
listed encoding (00E0, 00EE, other 0nnn as no-op, 5xy0 and 9xy0 with low
nibble 0 only, Ex9E and ExA1 only in group E, the nine listed Fxkk low
bytes), and none for every bit pattern outside the table. -/
def decodeTable (w : Nat) : Option Opcode :=
  if w = 0x00E0 then some .ClearDisplay
  else if w = 0x00EE then some .Return
  else if instOp w = 0x0 then some .Noop
  else if instOp w = 0x1 then some (.Jump (instNNN w))
  else if instOp w = 0x2 then some (.CallSubroutine (instNNN w))
  else if instOp w = 0x3 then some (.SkipIfConstantEqual (instX w) (instKK w))
  else if instOp w = 0x4 then some (.SkipIfConstantNotEqual (instX w) (instKK w))
  else if instOp w = 0x5 ∧ instN w = 0x0 then some (.SkipIfRegistersEqual (instX w) (instY w))
  else if instOp w = 0x6 then some (.LoadConstant (instX w) (instKK w))
  else if instOp w = 0x7 then some (.AddConstant (instX w) (instKK w))
  else if instOp w = 0x8 ∧ instN w = 0x0 then some (.LoadRegister (instX w) (instY w))
  else if instOp w = 0x8 ∧ instN w = 0x1 then some (.Or (instX w) (instY w))
  else if instOp w = 0x8 ∧ instN w = 0x2 then some (.And (instX w) (instY w))
  else if instOp w = 0x8 ∧ instN w = 0x3 then some (.Xor (instX w) (instY w))
  else if instOp w = 0x8 ∧ instN w = 0x4 then some (.AddRegister (instX w) (instY w))
  else if instOp w = 0x8 ∧ instN w = 0x5 then some (.SubtractRightRegister (instX w) (instY w))
  else if instOp w = 0x8 ∧ instN w = 0x6 then some (.ShiftRight (instX w))
  else if instOp w = 0x8 ∧ instN w = 0x7 then some (.SubtractLeftRegister (instX w) (instY w))
  else if instOp w = 0x8 ∧ instN w = 0xE then some (.ShiftLeft (instX w))
  else if instOp w = 0x9 ∧ instN w = 0x0 then some (.SkipIfRegistersNotEqual (instX w) (instY w))
  else if instOp w = 0xA then some (.LoadAddress (instNNN w))
  else if instOp w = 0xB then some (.JumpPlus (instNNN w))
  else if instOp w = 0xC then some (.Random (instX w) (instKK w))
  else if instOp w = 0xD then some (.DisplaySprite (instX w) (instY w) (instN w))
  else if instOp w = 0xE ∧ instKK w = 0x9E then some (.SkipIfPressed (instX w))
  else if instOp w = 0xE ∧ instKK w = 0xA1 then some (.SkipIfNotPressed (instX w))
  else if instOp w = 0xF ∧ instKK w = 0x07 then some (.LoadDelayTimer (instX w))
  else if instOp w = 0xF ∧ instKK w = 0x0A then some (.WaitForPress (instX w))
  else if instOp w = 0xF ∧ instKK w = 0x15 then some (.SetDelayTimer (instX w))
  else if instOp w = 0xF ∧ instKK w = 0x18 then some (.SetSoundTimer (instX w))
  else if instOp w = 0xF ∧ instKK w = 0x1E then some (.AddAddress (instX w))
  else if instOp w = 0xF ∧ instKK w = 0x29 then some (.LoadAddressOfSprite (instX w))
  else if instOp w = 0xF ∧ instKK w = 0x33 then some (.LoadDigits (instX w))
  else if instOp w = 0xF ∧ instKK w = 0x55 then some (.StoreRegisters (instX w))
  else if instOp w = 0xF ∧ instKK w = 0x65 then some (.LoadRegisters (instX w))
  else none

/-- Words on which the decoder of src/opcode.rs deviates from the section 4.1
table: 0nnn words other than 00E0 and 00EE whose low byte is E0 or EE (the
source keys the clear and return arms on the low byte only), and 5xyn or 9xyn
words with a nonzero low nibble (the source ignores the low nibble in those
two groups). -/
def decodeAnomaly (w : Nat) : Prop :=
  (instOp w = 0x0 ∧ (instKK w = 0xE0 ∨ instKK w = 0xEE) ∧ 0x100 ≤ w) ∨
  ((instOp w = 0x5 ∨ instOp w = 0x9) ∧ instN w ≠ 0)

instance (w : Nat) : Decidable (decodeAnomaly w) := by
  unfold decodeAnomaly
  infer_instance

/-- Machine with register 15 holding 1, used to observe the draw instruction
on a prior nonzero flag. -/
def c2state : Chip8 := { chip8Default with reg := upd chip8Default.reg 15 1 }

/-- Machine with register 15 holding 200, used to run 8FF4 (add with
destination register 15). -/
def c3state : Chip8 := { chip8Default with reg := upd chip8Default.reg 15 200 }

/-- Machine with a lit pixel at the origin and a one-row sprite with the
leftmost bit set at address 0x300, so that drawing it at the origin
collides. -/
def c3drawState : Chip8 :=
  { chip8Default with
      screen := upd chip8Default.screen 0 1
      memory := upd chip8Default.memory 0x300 0x80
      i_addr := 0x300 }

/-- Machine with V0 = 1, V1 = 2 and a stale flag value 1 in register 15,
used to run 8015 (V0 minus V1 with borrow). -/
def c4state : Chip8 :=
  { chip8Default with reg := upd (upd (upd chip8Default.reg 0 1) 1 2) 15 1 }

/-- Machine with V0 = 7, V1 = 9 and index register 0x300, used to run F155. -/
def c5state : Chip8 :=
  { chip8Default with reg := upd (upd chip8Default.reg 0 7) 1 9, i_addr := 0x300 }

/-- Machine with memory 0x300 = 20 and 0x301 = 30 and index register 0x300,
used to run F165. -/
def c5loadState : Chip8 :=
  { chip8Default with
      memory := upd (upd chip8Default.memory 0x300 20) 0x301 30
      i_addr := 0x300 }

/-- Machine whose next instruction word is 8FFF, an encoding outside the
section 4.1 table on which the decoder executes the Rust panic macro. -/
def c8faultState : Chip8 :=
  { chip8Default with
      memory := upd (upd chip8Default.memory 0x200 0x8F) 0x201 0xFF }

/-- Program A000 F033: set the index register to 0 and store the decimal
digits of V0 at addresses 0, 1, 2, inside the font region. -/
def c9prog : List Nat := [0xA0, 0x00, 0xF0, 0x33]

/-- Masking a natural number with 255 is reduction modulo 256. -/
theorem and255_eq_mod (n : Nat) : n &&& 255 = n % 256 := by
  have h := Nat.and_pow_two_sub_one_eq_mod n 8
  norm_num at h
  exact h

/-- Masking a natural number with 15 is reduction modulo 16. -/
theorem and15_eq_mod (n : Nat) : n &&& 15 = n % 16 := by
  have h := Nat.and_pow_two_sub_one_eq_mod n 4
  norm_num at h
  exact h

/-- Shifting right by 12 is division by 4096. -/
theorem shiftRight12_eq_div (n : Nat) : n >>> 12 = n / 4096 := by
  have h := Nat.shiftRight_eq_div_pow n 12
  norm_num at h
  exact h

/-- C1: the claim says Chip8::tick takes a timer that is already 0 to 0 and
never wraps it to 255.  On a fresh machine both timers are 0, and one tick
leaves both at 255: the source computes max(timer - 1, 0) on the unsigned
byte, so the subtraction wraps (release profile; a debug build panics at the
same spot) and the max with 0 is the identity. -/
theorem c1_tick_wraps_zero_timers_to_255 :
    timersOf (tick chip8Default 0) = some (255, 255) := by decide

/-- C2: the claim says every draw clears register 15 to 0 before blitting and
sets it to 1 only on collision.  Drawing one font row onto an empty screen
from a state whose register 15 holds 1 produces no collision, yet register 15
still holds 1 afterwards (the pixel conjunct shows the blit did happen): the
source never clears the flag, it only conditionally sets it to 1. -/
theorem c2_draw_leaves_stale_flag :
    regOf (executeOpcode c2state (Opcode.DisplaySprite 0 0 1) 0) 15 = some 1 ∧
    pixelOf (executeOpcode c2state (Opcode.DisplaySprite 0 0 1) 0) 0 0 = some 1 ∧
    getPixel c2state 0 0 = 0 := by decide

/-- C4: the claim says 8xy5 with V0 = 1, V1 = 2 leaves V0 = 0xFF and register
15 = 0.  From a state with a stale flag value 1, the wrapped difference 0xFF
is stored but register 15 still holds 1: the source only sets the flag to 1
on no-borrow and never clears it (and in a debug build the bare u8
subtraction 1 - 2 panics instead of wrapping). -/
theorem c4_borrow_flag_not_cleared :
    regOf (executeOpcode c4state (Opcode.SubtractRightRegister 0 1) 0) 0 = some 255 ∧
    regOf (executeOpcode c4state (Opcode.SubtractRightRegister 0 1) 0) 15 = some 1 := by decide

/-- C5: the claim says Fx55 stores V0 through Vx inclusive (x + 1 registers)
and Fx65 loads x + 1 registers.  Executing F155 from a state with V0 = 7,
V1 = 9 and index 0x300 writes only V0 to 0x300 and leaves 0x301 untouched,
and executing F165 with memory 20, 30 at 0x300, 0x301 loads only V0 and
leaves V1 at 0: the source loops for i in 0..x, which runs x times, not
x + 1 times. -/
theorem c5_store_copies_x_not_x_plus_one :
    memOf (executeOpcode c5state (Opcode.StoreRegisters 1) 0) 0x300 = some 7 ∧
    memOf (executeOpcode c5state (Opcode.StoreRegisters 1) 0) 0x301 = some 0 ∧
    regOf (executeOpcode c5loadState (Opcode.LoadRegisters 1) 0) 0 = some 20 ∧
    regOf (executeOpcode c5loadState (Opcode.LoadRegisters 1) 0) 1 = some 0 := by decide

/-- C6: executing the return instruction on a machine whose call stack is
empty produces the recoverable stack-underflow error, carrying the machine
unchanged (program counter included): the pop fails before any mutation. -/
theorem c6_return_empty_stack_errs (s : Chip8) (rnd : Nat) (h : s.stack = []) :
    executeOpcode s Opcode.Return rnd = Outcome.err "Tried to return from empty stack" s := by
  simp [executeOpcode, h]

/-- Witness for C6 at the fresh machine, whose stack is empty. -/
theorem c6_return_empty_stack_errs_witness :
    executeOpcode chip8Default Opcode.Return 0 =
      Outcome.err "Tried to return from empty stack" chip8Default :=
  c6_return_empty_stack_errs chip8Default 0 rfl

/-- C10: the three key-input instruction arms of Chip8::execute_opcode are
empty (the source marks them as TODO), so executing Ex9E, ExA1 or Fx0A
returns ok with the machine bitwise unchanged: ExA1 never skips, Fx0A never
blocks and never writes a register. -/
theorem c10_key_input_ops_are_noops (s : Chip8) (x rnd : Nat) :
    executeOpcode s (Opcode.SkipIfPressed x) rnd = Outcome.ok s ∧
    executeOpcode s (Opcode.SkipIfNotPressed x) rnd = Outcome.ok s ∧
    executeOpcode s (Opcode.WaitForPress x) rnd = Outcome.ok s :=
  ⟨rfl, rfl, rfl⟩

/-- Shifting right by 1 is division by 2. -/
theorem shiftRight1_eq_div (n : Nat) : n >>> 1 = n / 2 := by
  have h := Nat.shiftRight_eq_div_pow n 1
  norm_num at h
  exact h

/-- Shifting left by 1 is multiplication by 2. -/
theorem shiftLeft1_eq_mul (n : Nat) : n <<< 1 = n * 2 := by
  have h := Nat.shiftLeft_eq n 1
  norm_num at h
  exact h

/-- C3 counterexample: the claim says a flag-producing instruction whose
destination register is register 15 leaves the flag value in register 15.
Executing 8FF4 from a state with register 15 = 200 produces the carry flag 1
by the claim, but the code leaves the wrapped sum (200 + 200) mod 256 = 144:
the flag is written before the primary result, so the result overwrites
it. -/
theorem c3_add_to_vf_keeps_result_not_flag :
    regOf (executeOpcode c3state (Opcode.AddRegister 15 15) 0) 15 ≠ some 1 ∧
    regOf (executeOpcode c3state (Opcode.AddRegister 15 15) 0) 15 = some 144 := by decide

/-- C3 amended: in the arithmetic and shift instructions 8xy4, 8xy5, 8xy6,
8xy7, 8xyE the flag write to register 15 happens before the primary result is
stored, so when the destination register x is 15 the value left in register
15 is the arithmetic result, not the flag; only the draw instruction writes
its collision flag after its primary effect, and then only to set it to 1 on
collision. -/
theorem c3_amended_flag_overwritten_by_result (s : Chip8) (y rnd : Nat)
    ( _hreg : ∀ i, s.reg i < 256) :
    regOf (executeOpcode s (Opcode.AddRegister 15 y) rnd) 15 =
      some ((s.reg 15 + s.reg y) % 256) ∧
    regOf (executeOpcode s (Opcode.SubtractRightRegister 15 y) rnd) 15 =
      some ((s.reg 15 + 256 - s.reg y) % 256) ∧
    regOf (executeOpcode s (Opcode.ShiftRight 15) rnd) 15 = some (s.reg 15 / 2) ∧
    regOf (executeOpcode s (Opcode.SubtractLeftRegister 15 y) rnd) 15 =
      some ((s.reg y + 256 - s.reg 15) % 256) ∧
    regOf (executeOpcode s (Opcode.ShiftLeft 15) rnd) 15 = some (s.reg 15 * 2 % 256) ∧
    (∀ x2 y2 n,
      (drawSprite s.memory s.i_addr (s.reg x2) (s.reg y2) n s.screen).map Prod.snd =
        some true →
      regOf (executeOpcode s (Opcode.DisplaySprite x2 y2 n) rnd) 15 = some 1) := by
  refine ⟨?_, ?_, ?_, ?_, ?_, ?_⟩
  · simp [executeOpcode, regOf, upd, and255_eq_mod]
  · simp [executeOpcode, regOf, upd, sub8]
  · simp [executeOpcode, regOf, upd, shiftRight1_eq_div]
  · simp [executeOpcode, regOf, upd, sub8]
  · simp [executeOpcode, regOf, upd, shiftLeft1_eq_mul]
  · intro x2 y2 n hdr
    cases hds : drawSprite s.memory s.i_addr (s.reg x2) (s.reg y2) n s.screen with
    | none => rw [hds] at hdr; simp at hdr
    | some p =>
      obtain ⟨sc, coll⟩ := p
      rw [hds] at hdr
      simp at hdr
      subst hdr
      simp [executeOpcode, hds, regOf, upd]

/-- Witness for the C3 amended theorem: the arithmetic conjuncts at the fresh
machine with y = 3, and the draw conjunct at a machine where the blit
collides at the origin. -/
theorem c3_amended_flag_overwritten_by_result_witness :
    regOf (executeOpcode chip8Default (Opcode.AddRegister 15 3) 0) 15 =
      some ((chip8Default.reg 15 + chip8Default.reg 3) % 256) ∧
    regOf (executeOpcode chip8Default (Opcode.ShiftRight 15) 0) 15 =
      some (chip8Default.reg 15 / 2) ∧
    regOf (executeOpcode c3drawState (Opcode.DisplaySprite 0 0 1) 0) 15 = some 1 :=
  ⟨(c3_amended_flag_overwritten_by_result chip8Default 3 0
      (fun _ => Nat.zero_lt_succ 255)).1,
   (c3_amended_flag_overwritten_by_result chip8Default 3 0
      (fun _ => Nat.zero_lt_succ 255)).2.2.1,
   (c3_amended_flag_overwritten_by_result c3drawState 3 0
      (fun _ => Nat.zero_lt_succ 255)).2.2.2.2.2 0 0 1 (by decide)⟩

/-- C7 counterexample: the claim says an oversized program (length + 0x200
over 4096) is rejected with a recoverable, reported error.  Loading 3585
bytes (0x200 + 3585 = 4097) instead hits the out-of-bounds slice and panics:
the load is a fault, not an err result (Chip8::load_program returns unit and
has no error channel). -/
theorem c7_oversized_load_panics :
    loadProgram chip8Default (List.replicate 3585 0) = Outcome.fault := by
  unfold loadProgram
  rw [List.length_replicate]
  rw [if_neg (by norm_num)]

/-- C7 amended: a program that fits (length + 0x200 at most 4096) is copied
verbatim into memory starting at 0x200 with every other address unchanged;
an oversized program makes the load panic (slice out of bounds) rather than
return a recoverable error, and the machine is gone with the process. -/
theorem c7_amended_load (s : Chip8) (data : List Nat) :
    (0x200 + data.length ≤ 4096 → ∀ i, i < data.length →
      memOf (loadProgram s data) (0x200 + i) = some (data.getD i 0)) ∧
    (0x200 + data.length ≤ 4096 → ∀ a, a < 0x200 ∨ 0x200 + data.length ≤ a →
      memOf (loadProgram s data) a = some (s.memory a)) ∧
    (4096 < 0x200 + data.length → loadProgram s data = Outcome.fault) := by
  refine ⟨?_, ?_, ?_⟩
  · intro hfit i hi
    simp only [loadProgram, if_pos hfit, memOf]
    rw [if_pos ⟨by omega, by omega⟩]
    have hidx : 0x200 + i - 0x200 = i := by omega
    rw [hidx]
  · intro hfit a ha
    simp only [loadProgram, if_pos hfit, memOf]
    rw [if_neg (by omega : ¬(0x200 ≤ a ∧ a < 0x200 + data.length))]
  · intro hbig
    simp only [loadProgram]
    rw [if_neg (by omega)]

/-- Witness for the C7 amended theorem at the fresh machine: a three-byte
program lands at 0x200 and leaves the font region alone, and a 3585-byte
program faults. -/
theorem c7_amended_load_witness :
    memOf (loadProgram chip8Default [1, 2, 3]) (0x200 + 1) =
      some (([1, 2, 3] : List Nat).getD 1 0) ∧
    memOf (loadProgram chip8Default [1, 2, 3]) 0x1FF =
      some (chip8Default.memory 0x1FF) ∧
    loadProgram chip8Default (List.replicate 3585 0) = Outcome.fault :=
  ⟨(c7_amended_load chip8Default [1, 2, 3]).1 (by norm_num) 1 (by norm_num),
   (c7_amended_load chip8Default [1, 2, 3]).2.1 (by norm_num) 0x1FF
      (Or.inl (by norm_num)),
   (c7_amended_load chip8Default (List.replicate 3585 0)).2.2
      (by rw [List.length_replicate]; norm_num)⟩

/-- C9 counterexample: the claim says no instruction ever mutates the font
region 0x000 to 0x1FF.  From a fresh machine, loading the program A000 F033
and stepping twice stores the decimal digits of V0 at addresses 0, 1, 2:
address 0 then holds 0, while the construction-time font byte there was
0xF0. -/
theorem c9_font_region_mutated_by_program :
    memOf (oTick (oTick (loadProgram chip8Default c9prog) 0) 0) 0 = some 0 ∧
    chip8Default.memory 0 = 0xF0 := by decide

/-- C9 amended: the font region survives construction and loading: a fresh
machine holds the font bytes at addresses 0..79 (and zeros up to 0x1FF), and
a successful load writes only at 0x200 and above, so every address below
0x200 is unchanged.  Instructions, however, can overwrite the region (see
the counterexample: Fx33 with the index register below 0x200 does). -/
theorem c9_amended_font_preserved_by_load :
    (∀ a, a < 0x200 → chip8Default.memory a = if a < 80 then FONT.getD a 0 else 0) ∧
    (∀ (s : Chip8) (data : List Nat) (a : Nat), a < 0x200 →
      0x200 + data.length ≤ 4096 →
      memOf (loadProgram s data) a = some (s.memory a)) := by
  refine ⟨fun a _ => rfl, ?_⟩
  intro s data a ha hfit
  simp only [loadProgram, if_pos hfit, memOf]
  rw [if_neg (by omega : ¬(0x200 ≤ a ∧ a < 0x200 + data.length))]

/-- Witness for the C9 amended theorem: the font byte at address 0 of a fresh
machine, and address 0 after loading a three-byte program. -/
theorem c9_amended_font_preserved_by_load_witness :
    chip8Default.memory 0 = (if (0 : Nat) < 80 then FONT.getD 0 0 else 0) ∧
    memOf (loadProgram chip8Default [1, 2, 3]) 0 = some (chip8Default.memory 0) :=
  ⟨c9_amended_font_preserved_by_load.1 0 (by norm_num),
   c9_amended_font_preserved_by_load.2 chip8Default [1, 2, 3] 0 (by norm_num)
      (by norm_num)⟩

/-- Outside the three anomaly families, the decoder of src/opcode.rs agrees
with the section 4.1 table on every 16-bit word. -/
theorem decode_agrees_off_anomalies (w : Nat) (hw : w < 65536)
    (h : ¬ decodeAnomaly w) : decode w = decodeTable w := by
  have h255 := and255_eq_mod w
  have h15 := and15_eq_mod w
  have hop := shiftRight12_eq_div w
  unfold decode decodeTable decodeAnomaly at *
  simp only [instOp, instKK, instN, hop, h255, h15] at h ⊢
  set d := w / 4096 with hd
  have hdlt : d < 16 := by omega
  interval_cases d <;> norm_num <;> split_ifs <;> first | rfl | omega

/-- On every anomalous word the decoder still returns an opcode (which the
machine will execute), rather than failing. -/
theorem decode_some_on_anomaly (w : Nat) (h : decodeAnomaly w) :
    (decode w).isSome = true := by
  have h255 := and255_eq_mod w
  have h15 := and15_eq_mod w
  have hop := shiftRight12_eq_div w
  unfold decode decodeAnomaly at *
  simp only [instOp, instKK, instN, hop, h255, h15] at h ⊢
  rcases h with ⟨h0, _, _⟩ | ⟨h59, _⟩
  · rw [if_pos h0]
    split_ifs <;> rfl
  · rcases h59 with h5 | h9
    · simp [h5]
    · simp [h9]

/-- C8 counterexample: the claim says every word outside the section 4.1
table yields a decode error (never executed) and every word inside decodes to
its table variant.  The word 0x5121 is outside the table (5xyn with low
nibble 1), yet the decoder returns the register-compare skip, which the
machine will execute; and the word 0x01E0 is inside the table as a 0nnn
no-op, yet the decoder returns the clear-display opcode because it keys the
group 0 arms on the low byte alone. -/
theorem c8_decode_counterexample :
    decode 0x5121 = some (Opcode.SkipIfRegistersEqual 1 2) ∧
    decodeTable 0x5121 = none ∧
    decode 0x01E0 = some Opcode.ClearDisplay ∧
    decodeTable 0x01E0 = some Opcode.Noop := by decide

/-- C8 amended: the decoder agrees with the section 4.1 table on every
16-bit word except three anomaly families, where it decodes and executes
5xyn and 9xyn with nonzero low nibble and treats any 0nnn word with low byte
E0 or EE as clear or return; on every word it rejects, it executes the Rust
panic macro, so Chip8::tick aborts with a fault rather than reporting a
fatal-error result to the host. -/
theorem c8_amended_decode :
    (∀ w, w < 65536 → ¬ decodeAnomaly w → decode w = decodeTable w) ∧
    (∀ w, decodeAnomaly w → (decode w).isSome = true) ∧
    (∀ (s : Chip8) (rnd : Nat), s.pc + 1 < 4096 →
      decode ((s.memory s.pc) <<< 8 ||| s.memory (s.pc + 1)) = none →
      tick s rnd = Outcome.fault) := by
  refine ⟨decode_agrees_off_anomalies, decode_some_on_anomaly, ?_⟩
  intro s rnd hpc hdec
  simp only [tick]
  rw [if_pos hpc, hdec]

/-- Witness for the C8 amended theorem: agreement at the in-table word
0x1ABC, successful decode of the anomalous word 0x5121, and a fault of tick
on a machine whose next word is the out-of-table 8FFF. -/
theorem c8_amended_decode_witness :
    decode 0x1ABC = decodeTable 0x1ABC ∧
    (decode 0x5121).isSome = true ∧
    tick c8faultState 0 = Outcome.fault :=
  ⟨c8_amended_decode.1 0x1ABC (by norm_num) (by decide),
   c8_amended_decode.2.1 0x5121 (by decide),
   c8_amended_decode.2.2 c8faultState 0 (by decide) (by decide)⟩

end Chip8Verify
